import Mathlib

/-!
Shallow embedding of `src/dinspector.go` (desk-inspector).

The program is a sequential pipeline:
fetch view rows → per item run a version script → accumulate
`ItemVersion` / `ItemNotFound` records → either print (dry run) or upsert a
result document into CouchDB.

External collaborators (the OS filesystem, process execution, the CouchDB
store, the config file) are modelled as fields of an `Env` record; the
program's own control flow and data manipulation are translated line by
line.  A run's observable behaviour is a `RunResult`: either `ok` with the
list of emitted effects and the final value, or `panicked` (a Go `panic`
aborts the run) with the effects emitted before the abort.  A
`Effect.storePut` effect records a *successful* database write (a failed
`Put` writes nothing and panics); `Effect.storeGetMeta` records that the
store lookup was invoked.
-/

namespace DInspector

/-- Model of `strings.TrimSpace`: drop leading and trailing whitespace characters.
Implemented over the character list so that it evaluates by kernel
reduction. -/
def trimSpace (s : String) : String :=
  ⟨((s.data.dropWhile Char.isWhitespace).reverse.dropWhile
      Char.isWhitespace).reverse⟩

/-- Splitting a character list at every occurrence of a separator
character; `acc` holds the reversed current chunk. -/
def splitCharAux (c : Char) : List Char → List Char → List (List Char)
  | [], acc => [acc.reverse]
  | x :: xs, acc =>
    if x = c then acc.reverse :: splitCharAux c xs []
    else splitCharAux c xs (x :: acc)

/-- Model of `strings.Split(s, "|")`: split at every pipe; the result is never
empty (`strings.Split("", "|") = [""]`). -/
def splitPipe (s : String) : List String :=
  (splitCharAux '|' s.data []).map (fun l => ⟨l⟩)

/-- The `len(versionParts) == 2` rule of dinspector.go:200: the second
split part is kept only when the split produced exactly two parts;
otherwise the field keeps the Go string zero value `""` (unset). -/
def pkgPartOf : List String → String
  | [_, p1] => p1
  | _ => ""

/-- Outcome of `cmd.Output()` for the version script, as the Go code
classifies it: success with captured stdout, an error whose message
contains `"chdir"`, or any other error. -/
inductive ExecResult where
  | success (stdout : String)
  | chdirError
  | otherError
deriving DecidableEq, Repr

/-- Outcome of `db.GetMeta`: found with a revision, a 404 not-found error,
or any other error. -/
inductive GetMetaResult where
  | found (rev : String)
  | notFound
  | otherError
deriving DecidableEq, Repr

/-- Go struct `ItemWithSubKind` (dinspector.go:34). -/
structure ItemWithSubKind where
  id : String
  kind : String
  subKind : String
  subLoc : String
deriving DecidableEq, Repr

/-- Go struct `ItemVersion` (dinspector.go:41).  `packagesVersions` is a Go
string whose zero value `""` is omitted from JSON (`omitempty`), i.e. `""`
models the field being unset. -/
structure ItemVersion where
  domain : String
  kind : String
  kindTitle : String
  path : String
  version : String
  packagesVersions : String
deriving DecidableEq, Repr

/-- Go struct `ItemNotFound` (dinspector.go:50). -/
structure ItemNotFound where
  domain : String
  kind : String
  path : String
deriving DecidableEq, Repr

/-- Go struct `ItemVersionDoc` (dinspector.go:56). -/
structure ItemVersionDoc where
  id : String
  rev : String
  docType : String
  docSubType : String
  hostname : String
  items : List ItemVersion
  itemsNotFound : List ItemNotFound
deriving DecidableEq, Repr

/-- One entry of a view row's `included_service_items`
(`Included_type`, dinspector.go:108). -/
structure IncludedItem where
  itemid : String
  itemType : String
  itemSubType : String
  itemSubLoc : String
deriving DecidableEq, Repr

/-- One view row (`Rows_type`, dinspector.go:120); only the
`included_service_items` list of its value is read by the program. -/
structure Row where
  includedServiceItems : List IncludedItem
deriving DecidableEq, Repr

/-- Observable effects of a run: a line printed to stdout, a `GetMeta`
store lookup, or a successful `Put` store write. -/
inductive Effect where
  | print (s : String)
  | storeGetMeta (id : String)
  | storePut (id : String) (doc : ItemVersionDoc)
deriving DecidableEq, Repr

/-- The external world the program runs against. -/
structure Env where
  /-- Key `inspector.scripts` from the config file. -/
  scriptsPath : String
  /-- The `-n` flag. -/
  isDryRunVerbose : Bool
  /-- Whether `ini.Load` succeeds (dinspector.go:88). -/
  configLoadOk : Bool
  /-- Lookup `config.Section("inspector_scripts").Key(k).String()` (dinspector.go:191). -/
  configTitle : String → String
  /-- Result of `os.Hostname()`. -/
  hostname : String
  /-- Opening a directory with `os.Open`: `none` when the open fails, otherwise the
  directory's entries. -/
  openDir : String → Option (List String)
  /-- Value of `os.IsNotExist(err)` for `_, err := os.Stat(path)` (dinspector.go:166). -/
  statIsNotExist : String → Bool
  /-- Running the script at a path with the given working directory. -/
  exec : String → String → ExecResult
  /-- Whether the resty view query succeeds (dinspector.go:142). -/
  fetchOk : Bool
  /-- The parsed view rows. -/
  rows : List Row
  /-- Result of `db.GetMeta` for a document id (dinspector.go:241). -/
  getMeta : String → GetMetaResult
  /-- Whether `db.Put` for a document id succeeds (dinspector.go:218). -/
  putOk : String → Bool

/-- The two accumulator fields of `Inspector` (dinspector.go:71). -/
structure InspectorState where
  itemsVersion : List ItemVersion
  itemsNotFound : List ItemNotFound
deriving DecidableEq, Repr

/-- Result of running a pipeline fragment: the effects it emitted and
either its value or the fact that it panicked. -/
inductive RunResult (α : Type) where
  | ok (effects : List Effect) (val : α)
  | panicked (effects : List Effect)
deriving DecidableEq, Repr

/-- The effects emitted by a run, whether or not it panicked. -/
def RunResult.effects : RunResult α → List Effect
  | .ok effs _ => effs
  | .panicked effs => effs

/-- Go function `IsEmptyDir` (dinspector.go:20): first component is the returned Bool,
second is whether the returned error is non-nil.  An open failure returns
`(false, err)`; an empty directory (Readdirnames hits EOF) returns
`(true, nil)`; a non-empty directory returns `(false, nil)`. -/
def IsEmptyDir (env : Env) (name : String) : Bool × Bool :=
  match env.openDir name with
  | none => (false, true)
  | some [] => (true, false)
  | some (_ :: _) => (false, false)

/-- The script path `fmt.Sprint(inspector.scriptsPath, "/", item.subKind, ".sh")`
of dinspector.go:164. -/
def scriptPathOf (env : Env) (item : ItemWithSubKind) : String :=
  env.scriptsPath ++ "/" ++ item.subKind ++ ".sh"

/-- Go method `checkWebVersion` (dinspector.go:163).  The error returned by
`IsEmptyDir` is discarded (`isEmptySubLocDir, _ := ...`), exactly as in the
Go code. -/
def checkWebVersion (env : Env) (item : ItemWithSubKind) (st : InspectorState) :
    RunResult InspectorState :=
  let scriptPath := scriptPathOf env item
  let isEmptySubLocDir := (IsEmptyDir env (trimSpace item.subLoc)).1
  if !env.statIsNotExist scriptPath && !isEmptySubLocDir then
    match env.exec scriptPath (trimSpace item.subLoc) with
    | .chdirError =>
        let effs := if env.isDryRunVerbose
          then [Effect.print ("!chdir not found:" ++ item.subLoc ++ "\n")]
          else []
        .ok effs
          { st with itemsNotFound :=
              st.itemsNotFound ++ [⟨item.id, item.subKind, item.subLoc⟩] }
    | .otherError => .panicked []
    | .success out =>
        let versionString := trimSpace out
        let versionParts := splitPipe versionString
        let kindTitle := trimSpace (env.configTitle item.subKind)
        let newItemVersion : ItemVersion :=
          { domain := item.id
            kind := item.subKind
            kindTitle := kindTitle
            path := item.subLoc
            version := versionParts.headD ""
            packagesVersions := pkgPartOf versionParts }
        .ok [] { st with itemsVersion := st.itemsVersion ++ [newItemVersion] }
  else
    .ok [] st

/-- Building an `ItemWithSubKind` from a row's included item
(dinspector.go:153): `subLoc` is `strings.TrimSpace`d at construction. -/
def mkItem (inc : IncludedItem) : ItemWithSubKind :=
  { id := inc.itemid
    kind := inc.itemType
    subKind := inc.itemSubType
    subLoc := trimSpace inc.itemSubLoc }

/-- One iteration of the loop in `processWebItems` (dinspector.go:152):
indexing `Included_service_items[0]` on an empty slice is a Go
index-out-of-range panic. -/
def processRow (env : Env) (row : Row) (st : InspectorState) :
    RunResult InspectorState :=
  match row.includedServiceItems with
  | [] => .panicked []
  | first :: _ => checkWebVersion env (mkItem first) st

/-- The row loop of `processWebItems` (dinspector.go:152). -/
def processRows (env : Env) (rows : List Row) (st : InspectorState) :
    RunResult InspectorState :=
  match rows with
  | [] => .ok [] st
  | row :: rest =>
    match processRow env row st with
    | .panicked effs => .panicked effs
    | .ok effs st1 =>
      match processRows env rest st1 with
      | .panicked effs2 => .panicked (effs ++ effs2)
      | .ok effs2 st2 => .ok (effs ++ effs2) st2

/-- Go method `processWebItems` (dinspector.go:106): a failed view query panics
(dinspector.go:142). -/
def processWebItems (env : Env) (st : InspectorState) :
    RunResult InspectorState :=
  if env.fetchOk then processRows env env.rows st else .panicked []

/-- The line printed for one record by `printWebVersions`
(dinspector.go:226). -/
def printLineOf (item : ItemVersion) : String :=
  let versions :=
    if item.packagesVersions ≠ "" then
      item.version ++ "; " ++ item.packagesVersions
    else item.version
  "- " ++ item.domain ++ ":" ++ item.kind ++ " - " ++ item.kindTitle ++
    "\n  " ++ versions ++ "\n"

/-- Go method `printWebVersions` (dinspector.go:225). -/
def printWebVersions (st : InspectorState) : List Effect :=
  st.itemsVersion.map (fun item => Effect.print (printLineOf item))

/-- Go method `putItemVersionDoc` (dinspector.go:208): builds the document from the
current accumulators and writes it; a write failure panics, persisting
nothing. -/
def putItemVersionDoc (env : Env) (id rev hostname : String)
    (st : InspectorState) : RunResult Unit :=
  let doc : ItemVersionDoc :=
    { id := id
      rev := rev
      docType := "inspector"
      docSubType := "web"
      hostname := hostname
      items := st.itemsVersion
      itemsNotFound := st.itemsNotFound }
  if env.putOk id then .ok [Effect.storePut id doc] () else .panicked []

/-- The document id `fmt.Sprintf("%s-%s", "inspector", hostname)` of dinspector.go:240. -/
def docIdOf (hostname : String) : String :=
  "inspector" ++ "-" ++ hostname

/-- Go method `saveWebVersions` (dinspector.go:235). -/
def saveWebVersions (env : Env) (st : InspectorState) : RunResult Unit :=
  let id := docIdOf env.hostname
  match env.getMeta id with
  | .notFound =>
    match putItemVersionDoc env id "" env.hostname st with
    | .ok effs u => .ok (Effect.storeGetMeta id :: effs) u
    | .panicked effs => .panicked (Effect.storeGetMeta id :: effs)
  | .otherError => .panicked [Effect.storeGetMeta id]
  | .found rev =>
    match putItemVersionDoc env id rev env.hostname st with
    | .ok effs u => .ok (Effect.storeGetMeta id :: effs) u
    | .panicked effs => .panicked (Effect.storeGetMeta id :: effs)

/-- Go function `main` (dinspector.go:253): `Init` (panics if the config cannot be
loaded), `processWebItems`, then either print (dry run) or save. -/
def runMain (env : Env) : RunResult InspectorState :=
  if !env.configLoadOk then .panicked []
  else
    match processWebItems env ⟨[], []⟩ with
    | .panicked effs => .panicked effs
    | .ok effs st =>
      if env.isDryRunVerbose then
        .ok (effs ++ printWebVersions st) st
      else
        match saveWebVersions env st with
        | .ok effs2 _ => .ok (effs ++ effs2) st
        | .panicked effs2 => .panicked (effs ++ effs2)

/-- Whether an effect touches the store at all. -/
def Effect.isStore : Effect → Bool
  | .print _ => false
  | .storeGetMeta _ => true
  | .storePut _ _ => true

/-- Whether an effect is a successful store write. -/
def Effect.isPut : Effect → Bool
  | .storePut _ _ => true
  | _ => false

/-- Whether an effect is a store lookup. -/
def Effect.isGetMeta : Effect → Bool
  | .storeGetMeta _ => true
  | _ => false

/-- Whether an effect is a printed line. -/
def Effect.isPrint : Effect → Bool
  | .print _ => true
  | _ => false

/-- Whether an effect list contains no successful store write. -/
def noPuts (effs : List Effect) : Bool :=
  effs.all fun e => !e.isPut

/-- Whether a run performed no store access at all. -/
def noStoreEffects (r : RunResult α) : Bool :=
  r.effects.all fun e => !e.isStore

/-- Whether a run printed nothing. -/
def noPrintEffects (r : RunResult α) : Bool :=
  r.effects.all fun e => !e.isPrint

/-! ### Concrete fixtures used to instantiate the theorems -/

/-- A concrete environment; individual scenarios override fields. -/
def baseEnv : Env :=
  { scriptsPath := "/opt/scripts"
    isDryRunVerbose := false
    configLoadOk := true
    configTitle := fun _ => ""
    hostname := "web01"
    openDir := fun _ => some ["index.html"]
    statIsNotExist := fun _ => false
    exec := fun _ _ => .success "1.0"
    fetchOk := true
    rows := []
    getMeta := fun _ => .notFound
    putOk := fun _ => true }

/-- A concrete item with non-empty subKind and subLoc. -/
def item1 : ItemWithSubKind :=
  { id := "svc1", kind := "web", subKind := "nginx", subLoc := "/var/www/site" }

/-- Environment in which every directory open fails. -/
def envOpenFail : Env :=
  { baseEnv with openDir := fun _ => none }

/-- Environment in which every script stat reports not-exists. -/
def envScriptMissing : Env :=
  { baseEnv with statIsNotExist := fun _ => true }

/-! ### Branch lemmas for `checkWebVersion` -/

/-- When the stat check fails or the directory gate reports empty, the
item is skipped: no effect, state unchanged. -/
theorem checkWebVersion_skip_eq (env : Env) (item : ItemWithSubKind)
    (st : InspectorState)
    (h : env.statIsNotExist (scriptPathOf env item) = true ∨
         (IsEmptyDir env (trimSpace item.subLoc)).1 = true) :
    checkWebVersion env item st = .ok [] st := by
  rcases h with h | h <;> simp [checkWebVersion, h]

/-- Unfolding of the success branch of `checkWebVersion`. -/
theorem checkWebVersion_success_eq (env : Env) (item : ItemWithSubKind)
    (st : InspectorState) (out : String)
    (hscript : env.statIsNotExist (scriptPathOf env item) = false)
    (hgate : (IsEmptyDir env (trimSpace item.subLoc)).1 = false)
    (hexec : env.exec (scriptPathOf env item) (trimSpace item.subLoc) =
      .success out) :
    checkWebVersion env item st =
      .ok [] ⟨st.itemsVersion ++
        [⟨item.id, item.subKind, trimSpace (env.configTitle item.subKind),
          item.subLoc, (splitPipe (trimSpace out)).headD "",
          pkgPartOf (splitPipe (trimSpace out))⟩],
        st.itemsNotFound⟩ := by
  simp [checkWebVersion, hscript, hgate, hexec]

/-- Unfolding of the chdir-error branch of `checkWebVersion`. -/
theorem checkWebVersion_chdir_eq (env : Env) (item : ItemWithSubKind)
    (st : InspectorState)
    (hscript : env.statIsNotExist (scriptPathOf env item) = false)
    (hgate : (IsEmptyDir env (trimSpace item.subLoc)).1 = false)
    (hexec : env.exec (scriptPathOf env item) (trimSpace item.subLoc) =
      .chdirError) :
    checkWebVersion env item st =
      .ok (if env.isDryRunVerbose
            then [Effect.print ("!chdir not found:" ++ item.subLoc ++ "\n")]
            else [])
        ⟨st.itemsVersion,
         st.itemsNotFound ++ [⟨item.id, item.subKind, item.subLoc⟩]⟩ := by
  simp [checkWebVersion, hscript, hgate, hexec]

/-- Unfolding of the fatal branch of `checkWebVersion`: any execution
error other than a chdir error panics. -/
theorem checkWebVersion_other_eq (env : Env) (item : ItemWithSubKind)
    (st : InspectorState)
    (hscript : env.statIsNotExist (scriptPathOf env item) = false)
    (hgate : (IsEmptyDir env (trimSpace item.subLoc)).1 = false)
    (hexec : env.exec (scriptPathOf env item) (trimSpace item.subLoc) =
      .otherError) :
    checkWebVersion env item st = .panicked [] := by
  simp [checkWebVersion, hscript, hgate, hexec]

/-! ### C3 — the Directory Prober -/

/-- C3 counterexample: the claim states `IsEmptyDir` returns true when
the path cannot be opened; in `envOpenFail` the path `"/missing"` cannot
be opened and `IsEmptyDir` returns false (the error it also returns is
discarded by the caller at dinspector.go:165). -/
theorem isEmptyDir_open_fail_counterexample :
    envOpenFail.openDir "/missing" = none ∧
    (IsEmptyDir envOpenFail "/missing").1 = false :=
  ⟨rfl, rfl⟩

/-- C3 (amended): `IsEmptyDir` returns true exactly when the path opens
and contains zero entries; when the path cannot be opened it returns
false together with a non-nil error; a path with at least one entry gives
false with no error. -/
theorem isEmptyDir_spec (env : Env) (name : String) :
    ((IsEmptyDir env name).1 = true ↔ env.openDir name = some []) ∧
    (env.openDir name = none → IsEmptyDir env name = (false, true)) ∧
    (∀ x xs, env.openDir name = some (x :: xs) →
      IsEmptyDir env name = (false, false)) := by
  rcases h : env.openDir name with _ | (_ | ⟨x, xs⟩) <;>
    simp [IsEmptyDir, h]

/-- Witness for `isEmptyDir_spec` at a concrete unopenable path. -/
theorem isEmptyDir_spec_witness :
    IsEmptyDir envOpenFail "/gone" = (false, true) :=
  (isEmptyDir_spec envOpenFail "/gone").2.1 rfl

/-! ### C9 — missing script file -/

/-- C9: when `os.Stat` on `scriptsPath/subKind.sh` reports not-exists the
item is skipped entirely: no effect, no record of either kind, the state
is returned unchanged. -/
theorem script_missing_skips_item (env : Env) (item : ItemWithSubKind)
    (st : InspectorState)
    (h : env.statIsNotExist (scriptPathOf env item) = true) :
    checkWebVersion env item st = .ok [] st :=
  checkWebVersion_skip_eq env item st (Or.inl h)

/-- Witness for `script_missing_skips_item`: in `envScriptMissing` the
script stat fails and `item1` leaves the empty state unchanged. -/
theorem script_missing_skips_item_witness :
    checkWebVersion envScriptMissing item1 ⟨[], []⟩ = .ok [] ⟨[], []⟩ :=
  script_missing_skips_item envScriptMissing item1 ⟨[], []⟩ rfl

/-! ### C1 — missing or empty directory -/

/-- Environment in which every directory is empty (opens with zero
entries) while scripts exist. -/
def envDirEmpty : Env :=
  { baseEnv with openDir := fun _ => some [] }

/-- Environment in which every directory open fails and running a script
fails with a chdir error. -/
def envDirMissing : Env :=
  { baseEnv with openDir := fun _ => none, exec := fun _ _ => .chdirError }

/-- C1 counterexample: the script file exists, `item1` has non-empty
subKind and subLoc, and the directory opens empty; the claim demands one
`ItemNotFound` record, but the code skips the item and appends nothing to
either list. -/
theorem empty_dir_no_record_counterexample :
    envDirEmpty.statIsNotExist (scriptPathOf envDirEmpty item1) = false ∧
    envDirEmpty.openDir (trimSpace item1.subLoc) = some [] ∧
    item1.subKind = "nginx" ∧ item1.subLoc = "/var/www/site" ∧
    checkWebVersion envDirEmpty item1 ⟨[], []⟩ = .ok [] ⟨[], []⟩ :=
  ⟨rfl, rfl, rfl, rfl, rfl⟩

/-- C1 (amended): when the script file exists, a *missing* directory (the
open fails, so running the script fails with a chdir error) appends
exactly one `ItemNotFound` record with domain = item.id, kind =
item.subKind, path = item.subLoc and leaves the version list unchanged;
an *empty* directory (opens with zero entries) is skipped with no record
of either kind. -/
theorem missing_dir_not_found_record (env : Env) (item : ItemWithSubKind)
    (st : InspectorState)
    (hscript : env.statIsNotExist (scriptPathOf env item) = false) :
    (env.openDir (trimSpace item.subLoc) = none →
      env.exec (scriptPathOf env item) (trimSpace item.subLoc) =
        .chdirError →
      checkWebVersion env item st =
        .ok (if env.isDryRunVerbose
              then [Effect.print ("!chdir not found:" ++ item.subLoc ++ "\n")]
              else [])
          ⟨st.itemsVersion,
           st.itemsNotFound ++ [⟨item.id, item.subKind, item.subLoc⟩]⟩) ∧
    (env.openDir (trimSpace item.subLoc) = some [] →
      checkWebVersion env item st = .ok [] st) := by
  constructor
  · intro hopen hexec
    exact checkWebVersion_chdir_eq env item st hscript
      (by simp [IsEmptyDir, hopen]) hexec
  · intro hopen
    exact checkWebVersion_skip_eq env item st
      (Or.inr (by simp [IsEmptyDir, hopen]))

/-- Witness for `missing_dir_not_found_record`: a missing directory in
`envDirMissing` yields exactly the one not-found record for `item1`. -/
theorem missing_dir_not_found_record_witness :
    checkWebVersion envDirMissing item1 ⟨[], []⟩ =
      .ok (if envDirMissing.isDryRunVerbose
            then [Effect.print ("!chdir not found:" ++ item1.subLoc ++ "\n")]
            else [])
        ⟨[], [⟨"svc1", "nginx", "/var/www/site"⟩]⟩ :=
  (missing_dir_not_found_record envDirMissing item1 ⟨[], []⟩ rfl).1 rfl rfl

/-! ### C2 — exactly one outcome per item -/

/-- A second concrete item, used by the C2 scenario. -/
def item2 : ItemWithSubKind :=
  { id := "svc2", kind := "web", subKind := "apache2", subLoc := "/srv/www2" }

/-- Environment for the C2 counterexample: scripts exist, every directory
opens empty. -/
def envDirEmpty2 : Env :=
  { baseEnv with openDir := fun _ => some [], scriptsPath := "/usr/local/scripts" }

/-- Environment whose script execution always fails with a chdir error. -/
def envChdir : Env :=
  { baseEnv with exec := fun _ _ => .chdirError }

/-- C2 counterexample: the script path for `item2` exists (stat does not
report not-exists) and subKind/subLoc are non-empty, yet processing the
item appends to neither list — zero outcomes, where the claim demands
exactly one. -/
theorem one_outcome_counterexample :
    envDirEmpty2.statIsNotExist (scriptPathOf envDirEmpty2 item2) = false ∧
    item2.subKind = "apache2" ∧ item2.subLoc = "/srv/www2" ∧
    checkWebVersion envDirEmpty2 item2 ⟨[], []⟩ = .ok [] ⟨[], []⟩ :=
  ⟨rfl, rfl, rfl, rfl⟩

/-- C2 (amended): when the script path exists, the directory gate reports
non-empty, and the execution does not abort the run (it succeeds or fails
with a chdir error), the item produces exactly one outcome: exactly one
of the two lists is extended by exactly one record and the other is
unchanged.  Items skipped by the gate (empty directory or missing script)
produce no outcome. -/
theorem one_outcome_per_item (env : Env) (item : ItemWithSubKind)
    (st : InspectorState)
    (hscript : env.statIsNotExist (scriptPathOf env item) = false)
    (hgate : (IsEmptyDir env (trimSpace item.subLoc)).1 = false)
    (hexec : env.exec (scriptPathOf env item) (trimSpace item.subLoc) ≠
      .otherError) :
    ∃ effs st1, checkWebVersion env item st = .ok effs st1 ∧
      ((∃ r, st1.itemsVersion = st.itemsVersion ++ [r] ∧
             st1.itemsNotFound = st.itemsNotFound) ∨
       (∃ n, st1.itemsNotFound = st.itemsNotFound ++ [n] ∧
             st1.itemsVersion = st.itemsVersion)) := by
  rcases hcase : env.exec (scriptPathOf env item) (trimSpace item.subLoc)
    with out | _ | _
  · exact ⟨[], _, checkWebVersion_success_eq env item st out hscript hgate
      hcase, Or.inl ⟨_, rfl, rfl⟩⟩
  · exact ⟨_, _, checkWebVersion_chdir_eq env item st hscript hgate hcase,
      Or.inr ⟨_, rfl, rfl⟩⟩
  · exact absurd hcase hexec

/-- Witness for `one_outcome_per_item`: in `envChdir` the item `item2`
produces its single outcome. -/
theorem one_outcome_per_item_witness :
    ∃ effs st1, checkWebVersion envChdir item2 ⟨[], []⟩ = .ok effs st1 ∧
      ((∃ r, st1.itemsVersion = [] ++ [r] ∧ st1.itemsNotFound = []) ∨
       (∃ n, st1.itemsNotFound = [] ++ [n] ∧ st1.itemsVersion = [])) :=
  one_outcome_per_item envChdir item2 ⟨[], []⟩ rfl rfl (by decide)

/-! ### C4 — no filtering of items with empty subKind or subLoc -/

/-- An included item whose subtype is empty. -/
def inc4 : IncludedItem :=
  { itemid := "svc4", itemType := "web", itemSubType := "",
    itemSubLoc := "/srv/site4" }

/-- Environment whose single fetched row carries `inc4`; the script path
`"/opt/scripts/.sh"` passes the stat check and the directory is
non-empty. -/
def env4 : Env :=
  { baseEnv with rows := [⟨[inc4]⟩] }

/-- C4 counterexample: the fetched item has an empty subtype, yet the
fetcher passes it to the probe, the script runs and one `ItemVersion`
record is produced — the claim demands that no probe is attempted and no
record is produced. -/
theorem empty_subkind_probed_counterexample :
    inc4.itemSubType = "" ∧
    processWebItems env4 ⟨[], []⟩ =
      .ok [] ⟨[⟨"svc4", "", "", "/srv/site4", "1.0", ""⟩], []⟩ :=
  ⟨rfl, rfl⟩

/-- C4 (amended): the fetcher does not filter on subKind or subLoc: the
first included item of a row is passed to the probe even when its subtype
or sub-location is empty, and it produces a version record whenever its
script path passes the stat check, its directory gate reports non-empty
and the script succeeds. -/
theorem no_filter_on_empty_fields (env : Env) (inc : IncludedItem)
    (rest : List IncludedItem) (st : InspectorState) (out : String)
    (hempty : inc.itemSubType = "" ∨ trimSpace inc.itemSubLoc = "")
    (hscript : env.statIsNotExist (scriptPathOf env (mkItem inc)) = false)
    (hgate : (IsEmptyDir env (trimSpace (mkItem inc).subLoc)).1 = false)
    (hexec : env.exec (scriptPathOf env (mkItem inc))
      (trimSpace (mkItem inc).subLoc) = .success out) :
    processRow env ⟨inc :: rest⟩ st =
      .ok [] ⟨st.itemsVersion ++
        [⟨inc.itemid, inc.itemSubType,
          trimSpace (env.configTitle inc.itemSubType),
          trimSpace inc.itemSubLoc, (splitPipe (trimSpace out)).headD "",
          pkgPartOf (splitPipe (trimSpace out))⟩],
        st.itemsNotFound⟩ := by
  unfold processRow
  exact checkWebVersion_success_eq env (mkItem inc) st out hscript hgate hexec

/-- Witness for `no_filter_on_empty_fields`: the empty-subtype item
`inc4` in `baseEnv` produces a version record. -/
theorem no_filter_on_empty_fields_witness :
    processRow baseEnv ⟨[inc4]⟩ ⟨[], []⟩ =
      .ok [] ⟨[⟨"svc4", "", "", "/srv/site4", "1.0", ""⟩], []⟩ :=
  no_filter_on_empty_fields baseEnv inc4 [] ⟨[], []⟩ "1.0"
    (Or.inl rfl) rfl rfl rfl

/-! ### C5 — parsing of the script output -/

/-- A third concrete item, used by the parsing scenarios. -/
def item5 : ItemWithSubKind :=
  { id := "svc5", kind := "web", subKind := "php", subLoc := "/srv/app" }

/-- Environment whose script prints a version and a package string. -/
def envParse : Env :=
  { baseEnv with exec := fun _ _ => .success "1.2.3|pkgA=1,pkgB=2" }

/-- Environment whose script prints a bare version. -/
def envParseBare : Env :=
  { baseEnv with exec := fun _ _ => .success "1.2.3" }

/-- Environment whose script output contains two pipes. -/
def envParseMulti : Env :=
  { baseEnv with exec := fun _ _ => .success "1.2.3|pkgA=1|extra" }

/-- C5 counterexample: for output `"1.2.3|pkgA=1|extra"` a second part is
present, so the claim requires `packagesVersions` to be set to it; the
code splits at *every* pipe, gets three parts, and leaves
`packagesVersions` at `""` (unset). -/
theorem multi_pipe_output_counterexample :
    envParseMulti.exec (scriptPathOf envParseMulti item5)
      (trimSpace item5.subLoc) = .success "1.2.3|pkgA=1|extra" ∧
    checkWebVersion envParseMulti item5 ⟨[], []⟩ =
      .ok [] ⟨[⟨"svc5", "php", "", "/srv/app", "1.2.3", ""⟩], []⟩ :=
  ⟨rfl, rfl⟩

/-- C5 (amended): on success the captured stdout is whitespace-trimmed
and split at every pipe character; the record's version is the first
part, and `packagesVersions` is set to the second part exactly when the
split produced exactly two parts — with any other number of parts it
stays `""` (unset). -/
theorem success_output_parsing (env : Env) (item : ItemWithSubKind)
    (st : InspectorState) (out : String)
    (hscript : env.statIsNotExist (scriptPathOf env item) = false)
    (hgate : (IsEmptyDir env (trimSpace item.subLoc)).1 = false)
    (hexec : env.exec (scriptPathOf env item) (trimSpace item.subLoc) =
      .success out) :
    checkWebVersion env item st =
      .ok [] ⟨st.itemsVersion ++
        [⟨item.id, item.subKind, trimSpace (env.configTitle item.subKind),
          item.subLoc, (splitPipe (trimSpace out)).headD "",
          pkgPartOf (splitPipe (trimSpace out))⟩],
        st.itemsNotFound⟩ ∧
    (∀ v p, splitPipe (trimSpace out) = [v, p] →
      pkgPartOf (splitPipe (trimSpace out)) = p) ∧
    ((splitPipe (trimSpace out)).length ≠ 2 →
      pkgPartOf (splitPipe (trimSpace out)) = "") := by
  refine ⟨checkWebVersion_success_eq env item st out hscript hgate hexec,
    ?_, ?_⟩
  · intro v p h
    rw [h]; rfl
  · intro h
    rcases hsplit : splitPipe (trimSpace out) with _ | ⟨a, _ | ⟨b, _ | _⟩⟩ <;>
      first
        | rfl
        | (rw [hsplit] at h; exact absurd rfl h)

/-- Witness for `success_output_parsing`, covering both spec examples:
output `"1.2.3|pkgA=1,pkgB=2"` sets `packagesVersions` and output
`"1.2.3"` leaves it unset. -/
theorem success_output_parsing_witness :
    checkWebVersion envParse item5 ⟨[], []⟩ =
      .ok [] ⟨[⟨"svc5", "php", "", "/srv/app", "1.2.3", "pkgA=1,pkgB=2"⟩], []⟩ ∧
    checkWebVersion envParseBare item5 ⟨[], []⟩ =
      .ok [] ⟨[⟨"svc5", "php", "", "/srv/app", "1.2.3", ""⟩], []⟩ :=
  ⟨(success_output_parsing envParse item5 ⟨[], []⟩ "1.2.3|pkgA=1,pkgB=2"
      rfl rfl rfl).1,
   (success_output_parsing envParseBare item5 ⟨[], []⟩ "1.2.3"
      rfl rfl rfl).1⟩

/-! ### Effect-trace helper lemmas -/

/-- A printed line is neither a store access nor a store write. -/
theorem print_effect_not_store (e : Effect) (h : e.isPrint = true) :
    e.isStore = false ∧ e.isPut = false := by
  cases e <;> simp_all [Effect.isPrint, Effect.isStore, Effect.isPut]

/-- An all-print effect list contains no successful store write. -/
theorem all_print_noPuts (effs : List Effect)
    (h : (effs.all Effect.isPrint) = true) : noPuts effs = true := by
  simp only [noPuts, List.all_eq_true] at *
  intro e he
  have := h e he
  cases e <;> simp_all [Effect.isPrint, Effect.isPut]

/-- An all-print effect list contains no store effect. -/
theorem all_print_noStore (effs : List Effect)
    (h : (effs.all Effect.isPrint) = true) :
    (effs.all fun e => !e.isStore) = true := by
  simp only [List.all_eq_true] at *
  intro e he
  have := h e he
  cases e <;> simp_all [Effect.isPrint, Effect.isStore]

/-- Every effect emitted by `checkWebVersion` is a printed line. -/
theorem checkWebVersion_effects_print (env : Env) (item : ItemWithSubKind)
    (st : InspectorState) :
    ((checkWebVersion env item st).effects.all Effect.isPrint) = true := by
  by_cases hscript : env.statIsNotExist (scriptPathOf env item) = true
  · rw [checkWebVersion_skip_eq env item st (Or.inl hscript)]; rfl
  · replace hscript : env.statIsNotExist (scriptPathOf env item) = false := by
      simpa using hscript
    by_cases hgate : (IsEmptyDir env (trimSpace item.subLoc)).1 = true
    · rw [checkWebVersion_skip_eq env item st (Or.inr hgate)]; rfl
    · replace hgate : (IsEmptyDir env (trimSpace item.subLoc)).1 = false := by
        simpa using hgate
      rcases hexec : env.exec (scriptPathOf env item) (trimSpace item.subLoc)
        with out | _ | _
      · rw [checkWebVersion_success_eq env item st out hscript hgate hexec]
        rfl
      · rw [checkWebVersion_chdir_eq env item st hscript hgate hexec]
        cases hdry : env.isDryRunVerbose <;>
          simp [hdry, RunResult.effects, Effect.isPrint]
      · rw [checkWebVersion_other_eq env item st hscript hgate hexec]; rfl

/-- Without the dry-run flag `checkWebVersion` emits no effect. -/
theorem checkWebVersion_effects_nil (env : Env) (item : ItemWithSubKind)
    (st : InspectorState) (hdry : env.isDryRunVerbose = false) :
    (checkWebVersion env item st).effects = [] := by
  by_cases hscript : env.statIsNotExist (scriptPathOf env item) = true
  · rw [checkWebVersion_skip_eq env item st (Or.inl hscript)]; rfl
  · replace hscript : env.statIsNotExist (scriptPathOf env item) = false := by
      simpa using hscript
    by_cases hgate : (IsEmptyDir env (trimSpace item.subLoc)).1 = true
    · rw [checkWebVersion_skip_eq env item st (Or.inr hgate)]; rfl
    · replace hgate : (IsEmptyDir env (trimSpace item.subLoc)).1 = false := by
        simpa using hgate
      rcases hexec : env.exec (scriptPathOf env item) (trimSpace item.subLoc)
        with out | _ | _
      · rw [checkWebVersion_success_eq env item st out hscript hgate hexec]
        rfl
      · rw [checkWebVersion_chdir_eq env item st hscript hgate hexec]
        simp [hdry, RunResult.effects]
      · rw [checkWebVersion_other_eq env item st hscript hgate hexec]; rfl

/-- Every effect emitted by `processRow` is a printed line. -/
theorem processRow_effects_print (env : Env) (row : Row)
    (st : InspectorState) :
    ((processRow env row st).effects.all Effect.isPrint) = true := by
  cases h : row.includedServiceItems with
  | nil => simp [processRow, h, RunResult.effects]
  | cons a l =>
    simpa [processRow, h] using checkWebVersion_effects_print env (mkItem a) st

/-- Without the dry-run flag `processRow` emits no effect. -/
theorem processRow_effects_nil (env : Env) (row : Row)
    (st : InspectorState) (hdry : env.isDryRunVerbose = false) :
    (processRow env row st).effects = [] := by
  cases h : row.includedServiceItems with
  | nil => simp [processRow, h, RunResult.effects]
  | cons a l =>
    simpa [processRow, h] using
      checkWebVersion_effects_nil env (mkItem a) st hdry

/-- Every effect emitted by the row loop is a printed line. -/
theorem processRows_effects_print (env : Env) (rows : List Row) :
    ∀ st : InspectorState,
      ((processRows env rows st).effects.all Effect.isPrint) = true := by
  induction rows with
  | nil => intro st; rfl
  | cons row rest ih =>
    intro st
    unfold processRows
    cases hr : processRow env row st with
    | panicked effs =>
      have h1 := processRow_effects_print env row st
      rw [hr] at h1
      simpa [RunResult.effects] using h1
    | ok effs st1 =>
      have h1 := processRow_effects_print env row st
      rw [hr] at h1
      simp only [RunResult.effects] at h1
      cases hrec : processRows env rest st1 with
      | panicked effs2 =>
        have h2 := ih st1
        rw [hrec] at h2
        simp only [RunResult.effects] at h2
        simp [hrec, RunResult.effects, List.all_append, h1, h2]
      | ok effs2 st2 =>
        have h2 := ih st1
        rw [hrec] at h2
        simp only [RunResult.effects] at h2
        simp [hrec, RunResult.effects, List.all_append, h1, h2]

/-- Without the dry-run flag the row loop emits no effect. -/
theorem processRows_effects_nil (env : Env) (rows : List Row)
    (hdry : env.isDryRunVerbose = false) :
    ∀ st : InspectorState, (processRows env rows st).effects = [] := by
  induction rows with
  | nil => intro st; rfl
  | cons row rest ih =>
    intro st
    unfold processRows
    cases hr : processRow env row st with
    | panicked effs =>
      have h1 := processRow_effects_nil env row st hdry
      rw [hr] at h1
      simpa [RunResult.effects] using h1
    | ok effs st1 =>
      have h1 := processRow_effects_nil env row st hdry
      rw [hr] at h1
      simp only [RunResult.effects] at h1
      cases hrec : processRows env rest st1 with
      | panicked effs2 =>
        have h2 := ih st1
        rw [hrec] at h2
        simp only [RunResult.effects] at h2
        simp [hrec, RunResult.effects, h1, h2]
      | ok effs2 st2 =>
        have h2 := ih st1
        rw [hrec] at h2
        simp only [RunResult.effects] at h2
        simp [hrec, RunResult.effects, h1, h2]

/-- Every effect emitted by `processWebItems` is a printed line. -/
theorem processWebItems_effects_print (env : Env) (st : InspectorState) :
    ((processWebItems env st).effects.all Effect.isPrint) = true := by
  unfold processWebItems
  split
  · exact processRows_effects_print env env.rows st
  · rfl

/-- Without the dry-run flag `processWebItems` emits no effect. -/
theorem processWebItems_effects_nil (env : Env) (st : InspectorState)
    (hdry : env.isDryRunVerbose = false) :
    (processWebItems env st).effects = [] := by
  unfold processWebItems
  split
  · exact processRows_effects_nil env env.rows hdry st
  · rfl

/-- Each line of `printWebVersions` is a print effect. -/
theorem printWebVersions_all_print (st : InspectorState) :
    ((printWebVersions st).all Effect.isPrint) = true := by
  simp only [printWebVersions, List.all_eq_true, List.mem_map]
  rintro e ⟨item, -, rfl⟩
  rfl

/-! ### Case lemmas for `saveWebVersions` -/

/-- Save when the store has no prior document: write with empty
revision. -/
theorem saveWebVersions_notFound_eq (env : Env) (st : InspectorState)
    (hm : env.getMeta (docIdOf env.hostname) = .notFound)
    (hp : env.putOk (docIdOf env.hostname) = true) :
    saveWebVersions env st =
      .ok [Effect.storeGetMeta (docIdOf env.hostname),
        Effect.storePut (docIdOf env.hostname)
          ⟨docIdOf env.hostname, "", "inspector", "web", env.hostname,
           st.itemsVersion, st.itemsNotFound⟩] () := by
  simp [saveWebVersions, putItemVersionDoc, hm, hp]

/-- Save when the store holds a prior revision: write with that
revision. -/
theorem saveWebVersions_found_eq (env : Env) (st : InspectorState)
    (rev : String)
    (hm : env.getMeta (docIdOf env.hostname) = .found rev)
    (hp : env.putOk (docIdOf env.hostname) = true) :
    saveWebVersions env st =
      .ok [Effect.storeGetMeta (docIdOf env.hostname),
        Effect.storePut (docIdOf env.hostname)
          ⟨docIdOf env.hostname, rev, "inspector", "web", env.hostname,
           st.itemsVersion, st.itemsNotFound⟩] () := by
  simp [saveWebVersions, putItemVersionDoc, hm, hp]

/-- Save when the metadata lookup fails with a non-404 error: panic after
the lookup. -/
theorem saveWebVersions_metaFail_eq (env : Env) (st : InspectorState)
    (hm : env.getMeta (docIdOf env.hostname) = .otherError) :
    saveWebVersions env st =
      .panicked [Effect.storeGetMeta (docIdOf env.hostname)] := by
  simp [saveWebVersions, hm]

/-- Save when the write fails: panic after the lookup, writing nothing. -/
theorem saveWebVersions_putFail_eq (env : Env) (st : InspectorState)
    (hp : env.putOk (docIdOf env.hostname) = false)
    (hm : env.getMeta (docIdOf env.hostname) ≠ .otherError) :
    saveWebVersions env st =
      .panicked [Effect.storeGetMeta (docIdOf env.hostname)] := by
  rcases hm2 : env.getMeta (docIdOf env.hostname) with rev | _ | _
  · simp [saveWebVersions, putItemVersionDoc, hm2, hp]
  · simp [saveWebVersions, putItemVersionDoc, hm2, hp]
  · exact absurd hm2 hm

/-- Shape of any `saveWebVersions` outcome: a completed save emitted
exactly the lookup and one write of the freshly built document; a
panicked save emitted only the lookup. -/
theorem saveWebVersions_shape (env : Env) (st : InspectorState) :
    (∀ effs u, saveWebVersions env st = .ok effs u →
      ∃ rev, effs = [Effect.storeGetMeta (docIdOf env.hostname),
        Effect.storePut (docIdOf env.hostname)
          ⟨docIdOf env.hostname, rev, "inspector", "web", env.hostname,
           st.itemsVersion, st.itemsNotFound⟩]) ∧
    (∀ effs, saveWebVersions env st = .panicked effs →
      effs = [Effect.storeGetMeta (docIdOf env.hostname)]) := by
  rcases hm : env.getMeta (docIdOf env.hostname) with rev | _ | _
  · by_cases hp : env.putOk (docIdOf env.hostname) = true
    · rw [saveWebVersions_found_eq env st rev hm hp]
      constructor
      · intro effs u heq
        cases heq
        exact ⟨rev, rfl⟩
      · intro effs heq
        exact RunResult.noConfusion heq
    · replace hp : env.putOk (docIdOf env.hostname) = false := by
        simpa using hp
      rw [saveWebVersions_putFail_eq env st hp (by simp [hm])]
      constructor
      · intro effs u heq
        exact RunResult.noConfusion heq
      · intro effs heq
        cases heq
        rfl
  · by_cases hp : env.putOk (docIdOf env.hostname) = true
    · rw [saveWebVersions_notFound_eq env st hm hp]
      constructor
      · intro effs u heq
        cases heq
        exact ⟨"", rfl⟩
      · intro effs heq
        exact RunResult.noConfusion heq
    · replace hp : env.putOk (docIdOf env.hostname) = false := by
        simpa using hp
      rw [saveWebVersions_putFail_eq env st hp (by simp [hm])]
      constructor
      · intro effs u heq
        exact RunResult.noConfusion heq
      · intro effs heq
        cases heq
        rfl
  · rw [saveWebVersions_metaFail_eq env st hm]
    constructor
    · intro effs u heq
      exact RunResult.noConfusion heq
    · intro effs heq
      cases heq
      rfl

/-! ### C6 — fatal failures -/

/-- Environment whose config file cannot be loaded. -/
def envNoConfig : Env := { baseEnv with configLoadOk := false }

/-- Environment whose view query fails. -/
def envNoFetch : Env := { baseEnv with fetchOk := false }

/-- Environment whose script execution fails with a non-chdir error. -/
def envExecFail : Env := { baseEnv with exec := fun _ _ => .otherError }

/-- Environment whose store write fails. -/
def envPutFail : Env := { baseEnv with putOk := fun _ => false }

/-- Environment whose metadata lookup fails with a non-404 error. -/
def envMetaFail : Env := { baseEnv with getMeta := fun _ => .otherError }

/-- C6: a configuration-load failure, a fetch/query failure, a script
execution failure that is not a chdir error, a non-404 metadata lookup
error and a store write failure each abort the whole run (panic); and any
panicked run has performed no successful store write, so an aborted run
leaves no partial results. -/
theorem fatal_errors_abort (env : Env) :
    (env.configLoadOk = false → runMain env = .panicked []) ∧
    (env.configLoadOk = true → env.fetchOk = false →
      runMain env = .panicked []) ∧
    (∀ item st, env.statIsNotExist (scriptPathOf env item) = false →
      (IsEmptyDir env (trimSpace item.subLoc)).1 = false →
      env.exec (scriptPathOf env item) (trimSpace item.subLoc) =
        .otherError →
      checkWebVersion env item st = .panicked []) ∧
    (∀ id rev hn st, env.putOk id = false →
      putItemVersionDoc env id rev hn st = .panicked []) ∧
    (env.getMeta (docIdOf env.hostname) = .otherError →
      ∀ st, saveWebVersions env st =
        .panicked [Effect.storeGetMeta (docIdOf env.hostname)]) ∧
    (∀ effs, runMain env = .panicked effs → noPuts effs = true) := by
  refine ⟨?_, ?_, ?_, ?_, ?_, ?_⟩
  · intro h; simp [runMain, h]
  · intro hc hf; simp [runMain, processWebItems, hc, hf]
  · intro item st h1 h2 h3
    exact checkWebVersion_other_eq env item st h1 h2 h3
  · intro id rev hn st h; simp [putItemVersionDoc, h]
  · intro hm st; exact saveWebVersions_metaFail_eq env st hm
  · intro effs heq
    by_cases hc : env.configLoadOk = true
    · simp only [runMain, hc, Bool.not_true, Bool.false_eq_true, if_false] at heq
      cases hq : processWebItems env ⟨[], []⟩ with
      | panicked e =>
        rw [hq] at heq
        cases heq
        have h1 := processWebItems_effects_print env ⟨[], []⟩
        rw [hq] at h1
        simp only [RunResult.effects] at h1
        exact all_print_noPuts _ h1
      | ok e st1 =>
        rw [hq] at heq
        by_cases hdry : env.isDryRunVerbose = true
        · simp [hdry] at heq
        · replace hdry : env.isDryRunVerbose = false := by simpa using hdry
          simp only [hdry, Bool.false_eq_true, if_false] at heq
          cases hs : saveWebVersions env st1 with
          | ok e2 u => rw [hs] at heq; simp at heq
          | panicked e2 =>
            rw [hs] at heq
            cases heq
            have h1 := processWebItems_effects_print env ⟨[], []⟩
            rw [hq] at h1
            simp only [RunResult.effects] at h1
            have h1p := all_print_noPuts e h1
            have h2 := (saveWebVersions_shape env st1).2 e2 hs
            subst h2
            simp only [noPuts, List.all_append, Bool.and_eq_true] at h1p ⊢
            exact ⟨h1p, by simp [Effect.isPut]⟩
    · replace hc : env.configLoadOk = false := by simpa using hc
      simp only [runMain, hc, Bool.not_false, if_true] at heq
      cases heq
      rfl

/-- Witness for `fatal_errors_abort`: each fatal scenario instantiated
concretely. -/
theorem fatal_errors_abort_witness :
    runMain envNoConfig = .panicked [] ∧
    runMain envNoFetch = .panicked [] ∧
    checkWebVersion envExecFail item1 ⟨[], []⟩ = .panicked [] ∧
    putItemVersionDoc envPutFail "inspector-web01" "" "web01" ⟨[], []⟩ =
      .panicked [] ∧
    saveWebVersions envMetaFail ⟨[], []⟩ =
      .panicked [Effect.storeGetMeta (docIdOf "web01")] :=
  ⟨(fatal_errors_abort envNoConfig).1 rfl,
   (fatal_errors_abort envNoFetch).2.1 rfl rfl,
   (fatal_errors_abort envExecFail).2.2.1 item1 ⟨[], []⟩ rfl rfl rfl,
   (fatal_errors_abort envPutFail).2.2.2.1 "inspector-web01" "" "web01"
     ⟨[], []⟩ rfl,
   (fatal_errors_abort envMetaFail).2.2.2.2.1 rfl ⟨[], []⟩⟩

/-! ### C7 — upsert semantics -/

/-- A sample version record used to instantiate the store theorems. -/
def sampleRec : ItemVersion :=
  ⟨"svc1", "nginx", "NGINX", "/var/www/site", "1.18.0", "modsecurity=3.0"⟩

/-- A sample not-found record used to instantiate the store theorems. -/
def sampleNF : ItemNotFound := ⟨"svc2", "apache2", "/srv/www2"⟩

/-- Environment in which the store already holds a revision for every
document. -/
def envRev : Env := { baseEnv with getMeta := fun _ => .found "3-abc123" }

/-- C7: the persist path computes the document id as
`"inspector-" + hostname` and reads existing metadata for it; a 404
lookup writes a fresh document with the empty revision; a found lookup
writes with the existing revision token; in both cases the written
document's items/notFound are exactly the current accumulators (full
replacement); any other lookup error is fatal. -/
theorem upsert_revision_handling (env : Env) (st : InspectorState) :
    docIdOf env.hostname = "inspector-" ++ env.hostname ∧
    (env.getMeta (docIdOf env.hostname) = .notFound →
      env.putOk (docIdOf env.hostname) = true →
      saveWebVersions env st =
        .ok [Effect.storeGetMeta (docIdOf env.hostname),
          Effect.storePut (docIdOf env.hostname)
            ⟨docIdOf env.hostname, "", "inspector", "web", env.hostname,
             st.itemsVersion, st.itemsNotFound⟩] ()) ∧
    (∀ rev, env.getMeta (docIdOf env.hostname) = .found rev →
      env.putOk (docIdOf env.hostname) = true →
      saveWebVersions env st =
        .ok [Effect.storeGetMeta (docIdOf env.hostname),
          Effect.storePut (docIdOf env.hostname)
            ⟨docIdOf env.hostname, rev, "inspector", "web", env.hostname,
             st.itemsVersion, st.itemsNotFound⟩] ()) ∧
    (env.getMeta (docIdOf env.hostname) = .otherError →
      saveWebVersions env st =
        .panicked [Effect.storeGetMeta (docIdOf env.hostname)]) :=
  ⟨rfl,
   fun hm hp => saveWebVersions_notFound_eq env st hm hp,
   fun rev hm hp => saveWebVersions_found_eq env st rev hm hp,
   fun hm => saveWebVersions_metaFail_eq env st hm⟩

/-- Witness for `upsert_revision_handling`: both the fresh-insert and the
revision-reuse scenarios at concrete inputs. -/
theorem upsert_revision_handling_witness :
    saveWebVersions baseEnv ⟨[sampleRec], [sampleNF]⟩ =
      .ok [Effect.storeGetMeta (docIdOf "web01"),
        Effect.storePut (docIdOf "web01")
          ⟨docIdOf "web01", "", "inspector", "web", "web01",
           [sampleRec], [sampleNF]⟩] () ∧
    saveWebVersions envRev ⟨[], []⟩ =
      .ok [Effect.storeGetMeta (docIdOf "web01"),
        Effect.storePut (docIdOf "web01")
          ⟨docIdOf "web01", "3-abc123", "inspector", "web", "web01",
           [], []⟩] () :=
  ⟨(upsert_revision_handling baseEnv ⟨[sampleRec], [sampleNF]⟩).2.1 rfl rfl,
   (upsert_revision_handling envRev ⟨[], []⟩).2.2.1 "3-abc123" rfl rfl⟩

/-! ### C8 — the two reporter modes -/

/-- In dry-run mode every effect of the whole run is a printed line. -/
theorem runMain_dry_effects_print (env : Env)
    (hdry : env.isDryRunVerbose = true) :
    ((runMain env).effects.all Effect.isPrint) = true := by
  by_cases hc : env.configLoadOk = true
  · cases hq : processWebItems env ⟨[], []⟩ with
    | panicked e =>
      have h := processWebItems_effects_print env ⟨[], []⟩
      rw [hq] at h
      simp only [RunResult.effects] at h
      simp [runMain, hc, hq, RunResult.effects, h]
    | ok e st =>
      have h := processWebItems_effects_print env ⟨[], []⟩
      rw [hq] at h
      simp only [RunResult.effects] at h
      have h2 := printWebVersions_all_print st
      simp [runMain, hc, hq, hdry, RunResult.effects, List.all_append, h, h2]
  · replace hc : env.configLoadOk = false := by simpa using hc
    simp [runMain, hc, RunResult.effects]

/-- Without the dry-run flag the run never prints, and a completed run
performed exactly the metadata lookup followed by one document write. -/
theorem runMain_normal_shape (env : Env)
    (hdry : env.isDryRunVerbose = false) :
    noPrintEffects (runMain env) = true ∧
    (∀ effs st, runMain env = .ok effs st →
      ∃ rev, effs = [Effect.storeGetMeta (docIdOf env.hostname),
        Effect.storePut (docIdOf env.hostname)
          ⟨docIdOf env.hostname, rev, "inspector", "web", env.hostname,
           st.itemsVersion, st.itemsNotFound⟩]) := by
  by_cases hc : env.configLoadOk = true
  · cases hq : processWebItems env ⟨[], []⟩ with
    | panicked e =>
      have he : e = [] := by
        have h := processWebItems_effects_nil env ⟨[], []⟩ hdry
        rw [hq] at h
        simpa [RunResult.effects] using h
      subst he
      constructor
      · simp [noPrintEffects, runMain, hc, hq, RunResult.effects]
      · intro effs st heq
        simp [runMain, hc, hq] at heq
    | ok e st1 =>
      have he : e = [] := by
        have h := processWebItems_effects_nil env ⟨[], []⟩ hdry
        rw [hq] at h
        simpa [RunResult.effects] using h
      subst he
      cases hs : saveWebVersions env st1 with
      | ok e2 u =>
        rcases (saveWebVersions_shape env st1).1 e2 u hs with ⟨rev, he2⟩
        subst he2
        constructor
        · simp [noPrintEffects, runMain, hc, hq, hdry, hs,
            RunResult.effects, Effect.isPrint]
        · intro effs st heq
          simp only [runMain, hc, Bool.not_true, Bool.false_eq_true,
            if_false, hq, hdry, hs, List.nil_append] at heq
          rcases heq with ⟨⟩
          exact ⟨rev, rfl⟩
      | panicked e2 =>
        have he2 := (saveWebVersions_shape env st1).2 e2 hs
        subst he2
        constructor
        · simp [noPrintEffects, runMain, hc, hq, hdry, hs,
            RunResult.effects, Effect.isPrint]
        · intro effs st heq
          simp [runMain, hc, hq, hdry, hs] at heq
  · replace hc : env.configLoadOk = false := by simpa using hc
    constructor
    · simp [noPrintEffects, runMain, hc, RunResult.effects]
    · intro effs st heq
      simp [runMain, hc] at heq

/-- A row holding one complete included item. -/
def rowNginx : Row := ⟨[⟨"svc1", "web", "nginx", "/var/www/site"⟩]⟩

/-- A dry-run environment with one fetched row. -/
def envDry : Env :=
  { baseEnv with isDryRunVerbose := true, rows := [rowNginx] }

/-- C8: the reporter modes are mutually exclusive.  With the dry-run flag
the run performs no store effect whatsoever — the `GetMeta`/`Put` path is
never entered (every entry into it emits its lookup effect first) and
nothing is persisted.  Without the flag nothing is ever printed, and a
completed run invoked the upsert: exactly one metadata lookup followed by
one document write. -/
theorem reporter_modes_exclusive (env : Env) :
    (env.isDryRunVerbose = true → noStoreEffects (runMain env) = true) ∧
    (env.isDryRunVerbose = false →
      noPrintEffects (runMain env) = true ∧
      (∀ effs st, runMain env = .ok effs st →
        ∃ rev, effs = [Effect.storeGetMeta (docIdOf env.hostname),
          Effect.storePut (docIdOf env.hostname)
            ⟨docIdOf env.hostname, rev, "inspector", "web", env.hostname,
             st.itemsVersion, st.itemsNotFound⟩])) := by
  constructor
  · intro hdry
    exact all_print_noStore _ (runMain_dry_effects_print env hdry)
  · intro hdry
    exact runMain_normal_shape env hdry

/-- Witness for `reporter_modes_exclusive`: a concrete dry run touches no
store, a concrete normal run prints nothing. -/
theorem reporter_modes_exclusive_witness :
    noStoreEffects (runMain envDry) = true ∧
    noPrintEffects (runMain baseEnv) = true :=
  ⟨(reporter_modes_exclusive envDry).1 rfl,
   ((reporter_modes_exclusive baseEnv).2 rfl).1⟩

/-! ### C10 — unconditional indexing of element 0 -/

/-- If any row's included-items list is empty the row loop panics, and
the panicked trace contains no store write. -/
theorem processRows_any_empty_panics (env : Env) (rows : List Row) :
    ∀ st, (rows.any fun r => r.includedServiceItems.isEmpty) = true →
      ∃ effs, processRows env rows st = .panicked effs ∧
        noPuts effs = true := by
  induction rows with
  | nil => intro st h; simp at h
  | cons row rest ih =>
    intro st h
    simp only [List.any_cons, Bool.or_eq_true] at h
    cases hrow : row.includedServiceItems with
    | nil =>
      refine ⟨[], ?_, rfl⟩
      have hpr : processRow env row st = .panicked [] := by
        unfold processRow; rw [hrow]
      unfold processRows
      rw [hpr]
    | cons a l =>
      have hrest : (rest.any fun r => r.includedServiceItems.isEmpty) =
          true := by
        rcases h with h | h
        · rw [hrow] at h; simp at h
        · exact h
      have hpr : processRow env row st = checkWebVersion env (mkItem a) st := by
        unfold processRow; rw [hrow]
      cases hcw : checkWebVersion env (mkItem a) st with
      | panicked e =>
        refine ⟨e, ?_, ?_⟩
        · unfold processRows
          rw [hpr, hcw]
        · have h1 := checkWebVersion_effects_print env (mkItem a) st
          rw [hcw] at h1
          simp only [RunResult.effects] at h1
          exact all_print_noPuts e h1
      | ok e st1 =>
        rcases ih st1 hrest with ⟨effs2, heq2, hnp2⟩
        refine ⟨e ++ effs2, ?_, ?_⟩
        · unfold processRows
          rw [hpr, hcw]
          simp [heq2]
        · have h1 := checkWebVersion_effects_print env (mkItem a) st
          rw [hcw] at h1
          simp only [RunResult.effects] at h1
          have h1p := all_print_noPuts e h1
          simp only [noPuts, List.all_append, Bool.and_eq_true] at h1p hnp2 ⊢
          exact ⟨h1p, hnp2⟩

/-- C10: the item builder unconditionally reads element 0 of the row's
included list: a row with an empty list panics at once (index out of
range) with nothing emitted; if any fetched row has an empty list the
row loop — and with it the whole run — aborts, persisting nothing; and
included items beyond the first never influence processing. -/
theorem row_zero_index_panic (env : Env) :
    (∀ st, processRow env ⟨[]⟩ st = .panicked []) ∧
    (∀ rest st, processRows env (⟨[]⟩ :: rest) st = .panicked []) ∧
    (∀ rows st, (rows.any fun r => r.includedServiceItems.isEmpty) = true →
      ∃ effs, processRows env rows st = .panicked effs ∧
        noPuts effs = true) ∧
    (env.configLoadOk = true → env.fetchOk = true →
      (env.rows.any fun r => r.includedServiceItems.isEmpty) = true →
      ∃ effs, runMain env = .panicked effs ∧ noPuts effs = true) ∧
    (∀ inc extra rest st,
      processRow env ⟨inc :: extra⟩ st = processRow env ⟨inc :: rest⟩ st) := by
  refine ⟨fun st => rfl, fun rest st => rfl,
    processRows_any_empty_panics env, ?_, fun inc extra rest st => rfl⟩
  intro hc hf hany
  rcases processRows_any_empty_panics env env.rows ⟨[], []⟩ hany with
    ⟨effs, heq, hnp⟩
  refine ⟨effs, ?_, hnp⟩
  have hw : processWebItems env ⟨[], []⟩ = .panicked effs := by
    unfold processWebItems
    rw [hf]
    simpa using heq
  simp [runMain, hc, hw]

/-- A row with an empty included-items list. -/
def emptyRow : Row := ⟨[]⟩

/-- A second included item, never reached by the index-0 builder. -/
def incExtra : IncludedItem := ⟨"svc9", "web", "php", "/srv/nine"⟩

/-- Witness for `row_zero_index_panic`: the empty row panics the loop,
and a trailing second included item does not change the result. -/
theorem row_zero_index_panic_witness :
    processRows baseEnv [emptyRow] ⟨[], []⟩ = .panicked [] ∧
    processRow baseEnv ⟨[inc4, incExtra]⟩ ⟨[], []⟩ =
      processRow baseEnv ⟨[inc4]⟩ ⟨[], []⟩ :=
  ⟨(row_zero_index_panic baseEnv).2.1 [] ⟨[], []⟩,
   (row_zero_index_panic baseEnv).2.2.2.2 inc4 [incExtra] [] ⟨[], []⟩⟩

end DInspector
